import Mathlib

/-!
Verification of the Inventory_m_lite inventory check-in/check-out application.

The definitions below are a shallow embedding of the repository's code:
the React/TypeScript frontend (item cards, checkout/check-in modals, the
API client wrappers, and the dashboard statistics), plus the checkout
service, overdue computation and search projection of the backend, which
is not part of the frontend sources and is therefore modelled from the
specification where noted.

JavaScript numbers holding quantities and identifiers are embedded as
`Nat` (the data model constrains them to nonnegative integers); the one
fractional constant, the 20% low-stock threshold, is embedded exactly as
the rational `0.2`, which coincides with the double-precision comparison
for every representable inventory size.
-/

namespace InventoryM

/-- Condition values offered by the checkout and check-in forms
(`good | fair | poor` select inputs in the modals). -/
inductive Condition where
  | good
  | fair
  | poor
deriving DecidableEq, Repr

/-- Item record, from `frontend/src/types` (`Item`). Quantities are
nonnegative integers per the data model. Fields not consulted by any
embedded function are kept when claims mention them. -/
structure Item where
  item_id : Nat
  item_name : String
  category : String
  location : String
  quantity_total : Nat
  quantity_available : Nat
  quantity_checked_out : Nat
  condition : String
  status : String
  notes : Option String
deriving DecidableEq, Repr

/-- Badge classification of `ItemCard.getAvailabilityBadge`
(components/features/ItemCard): `quantity_available === 0` gives
"Out of Stock", else `quantity_available < quantity_total * 0.2` gives
"Low Stock", else "Available". The float comparison is embedded as the
exact rational comparison. -/
def ItemCard.getAvailabilityBadge (item : Item) : String :=
  if item.quantity_available = 0 then "Out of Stock"
  else if (item.quantity_available : ℚ) < (item.quantity_total : ℚ) * 0.2 then "Low Stock"
  else "Available"

/-- Badge classification of `ItemDetailsPage.getAvailabilityBadge`
(pages/ItemDetailsPage): the same three-way classification, duplicated
verbatim in the page. -/
def ItemDetailsPage.getAvailabilityBadge (item : Item) : String :=
  if item.quantity_available = 0 then "Out of Stock"
  else if (item.quantity_available : ℚ) < (item.quantity_total : ℚ) * 0.2 then "Low Stock"
  else "Available"

/-- A concrete item used to instantiate universally quantified theorems
at the spec's worked example (`total=10`). -/
def sampleItem (avail : Nat) : Item :=
  { item_id := 1
  , item_name := "drill"
  , category := "tools"
  , location := "san_jose"
  , quantity_total := 10
  , quantity_available := avail
  , quantity_checked_out := 10 - avail
  , condition := "good"
  , status := "active"
  , notes := none }

/-- Rendering of a `Condition` as the string carried by the request
bodies (the TS union type is the three literals). -/
def Condition.toStr : Condition → String
  | .good => "good"
  | .fair => "fair"
  | .poor => "poor"

/-- Checkout request body, from `frontend/src/types` (`CheckoutFormData`):
exactly `item_id`, `user_ldap`, `quantity`, optional
`expected_return_datetime`, `checkout_condition` and optional `notes`.
The quantity comes from a number input parsed with `parseInt`, so it is
an integer that may be negative. -/
structure CheckoutFormData where
  item_id : Nat
  user_ldap : String
  quantity : Int
  expected_return_datetime : Option String
  checkout_condition : String
  notes : Option String
deriving DecidableEq, Repr

/-- Check-in request body, from `frontend/src/types` (`CheckinFormData`):
exactly `checkout_id`, `return_condition` and optional `return_notes`. -/
structure CheckinFormData where
  checkout_id : Nat
  return_condition : String
  return_notes : Option String
deriving DecidableEq, Repr

/-- Active checkout row, from `frontend/src/types` (`ActiveCheckout`):
an open loan joined with item and user display fields and annotated with
the server-computed `is_overdue` and `days_overdue`. -/
structure ActiveCheckout where
  checkout_id : Nat
  checkout_date : String
  expected_return_datetime : Option String
  quantity : Nat
  ldap : String
  full_name : String
  email : String
  item_id : Nat
  item_name : String
  category : String
  location : String
  is_overdue : Bool
  days_overdue : Nat
  notes : Option String
deriving DecidableEq, Repr

/-- Response of the active-checkouts endpoint, from `frontend/src/types`
(`ActiveCheckoutsResponse`). -/
structure ActiveCheckoutsResponse where
  success : Bool
  total_active_checkouts : Nat
  checkouts : List ActiveCheckout
deriving DecidableEq, Repr

/-- State of the checkout form, from `CheckoutModal`'s `formData`. -/
structure CheckoutFormState where
  ldap : String
  quantity : Int
  expectedReturn : String
  condition : Condition
  notes : String
deriving DecidableEq, Repr

/-- The `newErrors` record built by `CheckoutModal.validate`: at most one
message per field. -/
structure CheckoutValidationErrors where
  ldap : Option String
  quantity : Option String
deriving DecidableEq, Repr

/-- The JS `String.prototype.trim()` used by the forms, modelled
character-wise (strip leading and trailing whitespace) so that it
evaluates by kernel reduction. -/
def jsTrim (s : String) : String :=
  String.mk
    (((s.data.dropWhile Char.isWhitespace).reverse.dropWhile
      Char.isWhitespace).reverse)

/-- Error record computed by `CheckoutModal.validate`: a required-LDAP
message when the trimmed LDAP is empty, and for the quantity first the
lower-bound check `quantity < 1`, else the availability check
`quantity > item.quantity_available`. -/
def CheckoutModal.validationErrors (item : Item) (f : CheckoutFormState) :
    CheckoutValidationErrors :=
  { ldap := if jsTrim f.ldap = "" then some ("LDAP username is required") else none
  , quantity :=
      if f.quantity < 1 then some ("Quantity must be at least 1")
      else if f.quantity > (item.quantity_available : Int) then
        some ("Only " ++ toString item.quantity_available ++ " available")
      else none }

/-- Boolean result of `CheckoutModal.validate`: true when the error
record is empty (`Object.keys(newErrors).length === 0`). -/
def CheckoutModal.validate (item : Item) (f : CheckoutFormState) : Bool :=
  (CheckoutModal.validationErrors item f).ldap.isNone &&
    (CheckoutModal.validationErrors item f).quantity.isNone

/-- Submission path of `CheckoutModal.handleSubmit`: when validation
fails no mutation is invoked (`none`); otherwise the mutation receives
the body with the trimmed LDAP, `expected_return_datetime` omitted when
the date field is the empty string (the JS `|| undefined`), and `notes`
omitted when blank after trimming. -/
def CheckoutModal.handleSubmit (item : Item) (f : CheckoutFormState) :
    Option CheckoutFormData :=
  if CheckoutModal.validate item f then
    some
      { item_id := item.item_id
      , user_ldap := jsTrim f.ldap
      , quantity := f.quantity
      , expected_return_datetime :=
          if f.expectedReturn = "" then none else some f.expectedReturn
      , checkout_condition := f.condition.toStr
      , notes := if jsTrim f.notes = "" then none else some (jsTrim f.notes) }
  else none

/-- State of the check-in form, from `CheckinModal`'s `formData`: the
return condition select (good/fair/poor) and the notes textarea. -/
structure CheckinFormState where
  returnCondition : Condition
  returnNotes : String
deriving DecidableEq, Repr

/-- Submission of `CheckinModal.handleSubmit`: no validation step; the
mutation always receives the displayed checkout's id, the selected
return condition, and `return_notes` omitted when blank after trimming
(the JS `returnNotes.trim() || undefined`). -/
def CheckinModal.handleSubmit (checkout : ActiveCheckout) (f : CheckinFormState) :
    CheckinFormData :=
  { checkout_id := checkout.checkout_id
  , return_condition := f.returnCondition.toStr
  , return_notes := if jsTrim f.returnNotes = "" then none else some (jsTrim f.returnNotes) }

/-- HTTP method of an API call. -/
inductive Method where
  | get
  | post
deriving DecidableEq, Repr

/-- An HTTP call issued through the axios `apiClient`: the method, the
url string passed to the client, and the request body if any. -/
structure ApiCall (β : Type) where
  method : Method
  url : String
  body : Option β
deriving DecidableEq, Repr

/-- The request issued by `checkoutItem` (api/checkout.ts): a POST to
`/api/checkout` whose body is the given `CheckoutFormData`. -/
def checkoutItem (data : CheckoutFormData) : ApiCall CheckoutFormData :=
  { method := .post, url := "/api/checkout", body := some data }

/-- The request issued by `checkinItem` (api/checkout.ts): a POST to
`/api/checkout/checkin` whose body is the given `CheckinFormData`. -/
def checkinItem (data : CheckinFormData) : ApiCall CheckinFormData :=
  { method := .post, url := "/api/checkout/checkin", body := some data }

/-- The request issued by `getActiveCheckouts` (api/checkout.ts):
`apiClient.get('api/checkout/active', data)`. The second argument of
axios `get` is a request config, not a body, so the GET carries no
request data; both call sites (DashboardPage, CheckoutsPage) invoke the
function with no argument anyway. -/
def getActiveCheckouts (data : Option CheckinFormData) : ApiCall CheckinFormData :=
  { method := .get, url := "api/checkout/active", body := none }

/-- Return value of `getActiveCheckouts`: the parsed `response.data`,
returned unchanged as an `ActiveCheckoutsResponse`. -/
def getActiveCheckoutsResult (resp : ActiveCheckoutsResponse) : ActiveCheckoutsResponse :=
  resp

/-- Modelled from the spec: the axios `apiClient` (frontend/src/api/client.ts
is not among the sources). Per the external-interface contract all routes
are rooted at the server root, and axios resolves a relative url `u`
against a scheme-and-host base URL to `/u`; an absolute path is kept. -/
def apiClient.resolve (url : String) : String :=
  match url.data with
  | '/' :: _ => url
  | _ => "/" ++ url

/-- A GET request whose query string is a list of `key=value` pairs, in
insertion order, as built by `URLSearchParams`. -/
structure GetRequest where
  path : String
  params : List (String × String)
deriving DecidableEq, Repr

/-- The request issued by `searchInventory` (api/inventory.ts): the
parameter `q` always, then `location` appended only when the argument is
truthy — present and not the empty string. -/
def searchInventory (query : String) (location : Option String) : GetRequest :=
  { path := "/api/inventory/search"
  , params :=
      [("q", query)] ++
        (match location with
         | some l => if l = "" then [] else [("location", l)]
         | none => []) }

/-- Availability filter of `DashboardPage.stats`:
`item.quantity_available > 0`. -/
def DashboardPage.isAvailableItem (it : Item) : Bool :=
  decide (it.quantity_available > 0)

/-- Out-of-stock filter of `DashboardPage.stats`:
`item.quantity_available === 0`. -/
def DashboardPage.isOutOfStockItem (it : Item) : Bool :=
  decide (it.quantity_available = 0)

/-- Low-stock filter of `DashboardPage.stats`:
`item.quantity_available > 0 && item.quantity_available < item.quantity_total * 0.2`. -/
def DashboardPage.isLowStockItem (it : Item) : Bool :=
  decide (it.quantity_available > 0) &&
    decide ((it.quantity_available : ℚ) < (it.quantity_total : ℚ) * 0.2)

/-- The `stats` record computed by `DashboardPage`. -/
structure DashboardStats where
  totalItems : Nat
  availableItems : Nat
  outOfStock : Nat
  lowStock : Nat
  activeCheckouts : Nat
  overdueCheckouts : Nat
deriving DecidableEq, Repr

/-- Computation of `DashboardPage.stats` over the fetched item list and
the active/overdue checkout lists. -/
def DashboardPage.stats (items : List Item)
    (activeCheckouts overdueCheckouts : List ActiveCheckout) : DashboardStats :=
  { totalItems := items.length
  , availableItems := (items.filter DashboardPage.isAvailableItem).length
  , outOfStock := (items.filter DashboardPage.isOutOfStockItem).length
  , lowStock := (items.filter DashboardPage.isLowStockItem).length
  , activeCheckouts := activeCheckouts.length
  , overdueCheckouts := overdueCheckouts.length }

/-- Rendering condition of the Checkout button in `ItemCard`:
`item.quantity_available > 0 && onCheckout`, where the second conjunct
is whether a checkout handler prop was supplied. -/
def ItemCard.showsCheckoutButton (item : Item) (hasCheckoutHandler : Bool) : Bool :=
  decide (item.quantity_available > 0) && hasCheckoutHandler

/-- The action offered by the `ItemDetailsPage` Actions card. -/
inductive DetailsAction where
  | checkoutButton
  | outOfStockDisabled
deriving DecidableEq, Repr

/-- Action rendered by `ItemDetailsPage`: an enabled Checkout button
opening the modal when `item.quantity_available > 0`, otherwise a
disabled Out-of-Stock button. -/
def ItemDetailsPage.checkoutAction (item : Item) : DetailsAction :=
  if item.quantity_available > 0 then .checkoutButton else .outOfStockDisabled

/-- Modelled from the spec: an item row of the backend store (the Flask
backend is not among the sources); quantities are the store's integers. -/
structure StoreItem where
  quantity_total : Int
  quantity_available : Int
  quantity_checked_out : Int
deriving DecidableEq, Repr

/-- Modelled from the spec: an open-loan row of the Checkout Ledger
(the backend is not among the sources). Times are epoch seconds. -/
structure LedgerRow where
  checkout_id : Nat
  item_id : Nat
  user_ldap : String
  quantity : Int
  checkout_date : Nat
  expected_return_datetime : Nat
  checkout_condition : Condition
deriving DecidableEq, Repr

/-- Modelled from the spec: a closed-loan history record (the backend
is not among the sources). -/
structure HistoryRow where
  closed : LedgerRow
  return_date : Nat
  return_condition : Condition
  late_return : Bool
  return_notes : Option String
deriving DecidableEq, Repr

/-- Modelled from the spec: the failure taxonomy of the Checkout and
Check-in Service (the backend is not among the sources). -/
inductive ServiceError where
  | itemNotFound
  | userNotFound
  | invalidQuantity
  | insufficientQuantity
  | checkoutNotFound
  | alreadyReturned
deriving DecidableEq, Repr

/-- Modelled from the spec: the state of the backend stores touched by
the service (the backend is not among the sources) — item rows keyed by
`item_id`, the user directory as its set of ldap handles, the
open-checkout set and the history table. -/
structure ServiceState where
  items : List (Nat × StoreItem)
  users : List String
  openCheckouts : List LedgerRow
  history : List HistoryRow
  nextCheckoutId : Nat
deriving DecidableEq, Repr

/-- Modelled from the spec: the pointwise update of one item row of the
backend store, keyed by `item_id`. -/
def updateItem (item_id : Nat) (f : StoreItem → StoreItem)
    (l : List (Nat × StoreItem)) : List (Nat × StoreItem) :=
  l.map fun p => if p.1 = item_id then (p.1, f p.2) else p

/-- Modelled from the spec: `checkout(item_id, user_ldap, quantity,
expected_return_datetime?, condition, notes?)` of the Checkout Service
(backend not among the sources). Validates item and user existence and
`1 ≤ quantity ≤ quantity_available`, then atomically moves `quantity`
units from available to checked out and inserts the open row, with
`expected_return_datetime` defaulted to `now + 7 days`. -/
def Service.checkout (s : ServiceState) (item_id : Nat) (user_ldap : String)
    (quantity : Int) (expected : Option Nat) (now : Nat) (condition : Condition) :
    Except ServiceError (LedgerRow × ServiceState) :=
  match s.items.lookup item_id with
  | none => .error .itemNotFound
  | some it =>
    if ! s.users.contains user_ldap then .error .userNotFound
    else if quantity ≤ 0 then .error .invalidQuantity
    else if it.quantity_available < quantity then .error .insufficientQuantity
    else
      let row : LedgerRow :=
        { checkout_id := s.nextCheckoutId
        , item_id := item_id
        , user_ldap := user_ldap
        , quantity := quantity
        , checkout_date := now
        , expected_return_datetime := expected.getD (now + 7 * 86400)
        , checkout_condition := condition }
      .ok (row,
        { s with
          items := updateItem item_id
            (fun i =>
              { i with
                quantity_available := i.quantity_available - quantity
              , quantity_checked_out := i.quantity_checked_out + quantity })
            s.items
        , openCheckouts := row :: s.openCheckouts
        , nextCheckoutId := s.nextCheckoutId + 1 })

/-- Modelled from the spec: `checkin(checkout_id, return_condition,
return_notes?)` of the Check-in Service (backend not among the sources).
Requires an open checkout; atomically moves the loan's quantity back to
available, closes the row into history with `return_date = now` and
`late_return = (now > expected_return_datetime)`. A second check-in on
an already-closed id fails. -/
def Service.checkin (s : ServiceState) (checkout_id : Nat) (now : Nat)
    (return_condition : Condition) (return_notes : Option String) :
    Except ServiceError (HistoryRow × ServiceState) :=
  match s.openCheckouts.find? (fun r => r.checkout_id == checkout_id) with
  | none =>
    if s.history.any (fun h => h.closed.checkout_id == checkout_id) then
      .error .alreadyReturned
    else
      .error .checkoutNotFound
  | some r =>
    let h : HistoryRow :=
      { closed := r
      , return_date := now
      , return_condition := return_condition
      , late_return := decide (r.expected_return_datetime < now)
      , return_notes := return_notes }
    .ok (h,
      { s with
        items := updateItem r.item_id
          (fun i =>
            { i with
              quantity_available := i.quantity_available + r.quantity
            , quantity_checked_out := i.quantity_checked_out - r.quantity })
          s.items
      , openCheckouts := s.openCheckouts.filter (fun x => x.checkout_id != checkout_id)
      , history := h :: s.history })

/-- The conservation invariant of the data model: every item row
satisfies `quantity_available + quantity_checked_out = quantity_total`. -/
def quantityInvariant (s : ServiceState) : Prop :=
  ∀ p ∈ s.items, p.2.quantity_available + p.2.quantity_checked_out = p.2.quantity_total

/-- A concrete service state with one fully stocked item and one user,
the spec's worked example (`Item{total=5, available=5}`). -/
def sampleState : ServiceState :=
  { items := [(1, { quantity_total := 5, quantity_available := 5, quantity_checked_out := 0 })]
  , users := ["abc"]
  , openCheckouts := []
  , history := []
  , nextCheckoutId := 1 }

/-- Modelled from the spec: `is_overdue` of the query projections
(backend not among the sources) — no return yet and the current time is
past `expected_return_datetime`. Times are epoch seconds. -/
def isOverdue (returned : Bool) (now expected : Nat) : Bool :=
  ! returned && decide (expected < now)

/-- Modelled from the spec: `days_overdue` of the query projections
(backend not among the sources) — whole days between now and
`expected_return_datetime`, floored at 0 when not overdue. -/
def daysOverdue (returned : Bool) (now expected : Nat) : Nat :=
  if isOverdue returned now expected then (now - expected) / 86400 else 0

/-- Character-level substring test: some suffix of `s` starts with
`pat`. -/
def containsSubstring (s pat : String) : Bool :=
  (List.range (s.length + 1)).any fun i => (s.drop i).startsWith pat

/-- Case-insensitive substring test, lowering both sides. -/
def containsCI (s pat : String) : Bool :=
  containsSubstring s.toLower pat.toLower

/-- Modelled from the spec: the match predicate of `search(query,
location?)` (backend not among the sources) — case-insensitive substring
match against item name and category, optionally filtered by an exact
location. -/
def matchesSearch (query : String) (location : Option String) (it : Item) : Bool :=
  (containsCI it.item_name query || containsCI it.category query) &&
    (match location with
     | some l => decide (it.location = l)
     | none => true)

/-- Modelled from the spec: the `search` projection (backend not among
the sources) — filters the store's rows, which are enumerated in
`item_id` order, without reranking. -/
def searchItems (items : List Item) (query : String) (location : Option String) :
    List Item :=
  items.filter (matchesSearch query location)

/-- A concrete active checkout used to instantiate universally
quantified theorems. -/
def sampleActiveCheckout : ActiveCheckout :=
  { checkout_id := 42
  , checkout_date := "2025-01-01T10:00:00"
  , expected_return_datetime := some ("2025-01-08T10:00:00")
  , quantity := 2
  , ldap := "abc"
  , full_name := "A Bee"
  , email := "abc@example.com"
  , item_id := 1
  , item_name := "drill"
  , category := "tools"
  , location := "san_jose"
  , is_overdue := false
  , days_overdue := 0
  , notes := none }

end InventoryM

namespace InventoryM

/-- C2: availability classification. `quantity_available = 0` is
"Out of Stock"; otherwise below 20% of the total is "Low Stock";
otherwise "Available"; the details page agrees with the card; and the
spec's concrete examples at `total = 10` hold. -/
theorem claim_C2 (item : Item) :
    (item.quantity_available = 0 → ItemCard.getAvailabilityBadge item = "Out of Stock") ∧
    (item.quantity_available ≠ 0 →
      (item.quantity_available : ℚ) < 0.2 * (item.quantity_total : ℚ) →
      ItemCard.getAvailabilityBadge item = "Low Stock") ∧
    (item.quantity_available ≠ 0 →
      ¬ ((item.quantity_available : ℚ) < 0.2 * (item.quantity_total : ℚ)) →
      ItemCard.getAvailabilityBadge item = "Available") ∧
    ItemDetailsPage.getAvailabilityBadge item = ItemCard.getAvailabilityBadge item ∧
    ItemCard.getAvailabilityBadge (sampleItem 0) = "Out of Stock" ∧
    ItemCard.getAvailabilityBadge (sampleItem 1) = "Low Stock" ∧
    ItemCard.getAvailabilityBadge (sampleItem 8) = "Available" := by
  refine ⟨?_, ?_, ?_, rfl, ?_, ?_, ?_⟩
  · intro h
    simp [ItemCard.getAvailabilityBadge, h]
  · intro h hlt
    rw [mul_comm] at hlt
    simp [ItemCard.getAvailabilityBadge, h, hlt]
  · intro h hge
    rw [mul_comm] at hge
    simp [ItemCard.getAvailabilityBadge, h, hge]
  · norm_num [ItemCard.getAvailabilityBadge, sampleItem]
  · norm_num [ItemCard.getAvailabilityBadge, sampleItem]
  · norm_num [ItemCard.getAvailabilityBadge, sampleItem]

/-- Witness for C2 at a concrete low-stock item. -/
theorem claim_C2_witness :
    ItemCard.getAvailabilityBadge (sampleItem 1) = "Low Stock" :=
  (claim_C2 (sampleItem 1)).2.1 (by decide) (by norm_num [sampleItem])

/-- An item-row property surviving a pointwise update that preserves
it. -/
theorem updateItem_forall {P : StoreItem → Prop} {l : List (Nat × StoreItem)}
    (hl : ∀ p ∈ l, P p.2) {item_id : Nat} {f : StoreItem → StoreItem}
    (hf : ∀ i, P i → P (f i)) :
    ∀ p ∈ updateItem item_id f l, P p.2 := by
  intro p hp
  simp only [updateItem, List.mem_map] at hp
  obtain ⟨q, hq, rfl⟩ := hp
  split
  · exact hf q.2 (hl q hq)
  · exact hl q hq

/-- Claim C1: for every Item, `quantity_available + quantity_checked_out
= quantity_total` is preserved by every successful checkout and every
successful check-in of the service. -/
theorem claim_C1 (s : ServiceState) (hs : quantityInvariant s) :
    (∀ item_id user_ldap quantity expected now condition row s',
        Service.checkout s item_id user_ldap quantity expected now condition =
          .ok (row, s') →
        quantityInvariant s') ∧
    (∀ checkout_id now condition notes hist s',
        Service.checkin s checkout_id now condition notes = .ok (hist, s') →
        quantityInvariant s') := by
  constructor
  · intro item_id user_ldap quantity expected now condition row s' hok
    rw [Service.checkout.eq_def] at hok
    split at hok
    · simp at hok
    · split at hok
      · simp at hok
      · split at hok
        · simp at hok
        · split at hok
          · simp at hok
          · simp only [Except.ok.injEq, Prod.mk.injEq] at hok
            obtain ⟨-, hs'⟩ := hok
            subst hs'
            intro p hp
            dsimp only at hp
            refine updateItem_forall
              (P := fun i =>
                i.quantity_available + i.quantity_checked_out = i.quantity_total)
              hs ?_ p hp
            intro i hi
            dsimp
            omega
  · intro checkout_id now condition notes hist s' hok
    rw [Service.checkin.eq_def] at hok
    split at hok
    · split at hok <;> simp at hok
    · simp only [Except.ok.injEq, Prod.mk.injEq] at hok
      obtain ⟨-, hs'⟩ := hok
      subst hs'
      intro p hp
      dsimp only at hp
      refine updateItem_forall
        (P := fun i =>
          i.quantity_available + i.quantity_checked_out = i.quantity_total)
        hs ?_ p hp
      intro i hi
      dsimp
      omega

set_option maxRecDepth 4000 in
/-- Witness for C1: checking out 2 of 5 units from the sample state
succeeds and the resulting state still satisfies the invariant. -/
theorem claim_C1_witness :
    ∃ row s',
      Service.checkout sampleState 1 ("abc") 2 none 0 Condition.good =
        Except.ok (row, s') ∧
      quantityInvariant s' := by
  have hs : quantityInvariant sampleState := by
    intro p hp
    simp only [sampleState, List.mem_singleton] at hp
    subst hp
    rfl
  exact ⟨_, _, rfl,
    (claim_C1 sampleState hs).1 1 ("abc") 2 none 0 Condition.good _ _ rfl⟩

/-- Claim C4: for an open checkout, `is_overdue` holds exactly when now
is past the expected return time; `days_overdue` is the floored number
of whole elapsed days, 0 when not overdue; three days past due gives 3,
and a future expected return gives not-overdue and 0. -/
theorem claim_C4 (now expected : Nat) :
    (isOverdue false now expected = true ↔ expected < now) ∧
    daysOverdue false now expected = (now - expected) / 86400 ∧
    (3 * 86400 ≤ now → expected = now - 3 * 86400 →
      isOverdue false now expected = true ∧ daysOverdue false now expected = 3) ∧
    (now < expected →
      isOverdue false now expected = false ∧ daysOverdue false now expected = 0) := by
  refine ⟨?_, ?_, ?_, ?_⟩
  · simp [isOverdue]
  · rw [daysOverdue]
    by_cases h : expected < now
    · simp [isOverdue, h]
    · simp only [isOverdue, h, decide_False, Bool.not_false, Bool.true_and,
        Bool.false_eq_true, if_false]
      omega
  · intro h3 hexp
    have hov : isOverdue false now expected = true := by
      rw [isOverdue]
      simp only [Bool.not_false, Bool.true_and, decide_eq_true_eq]
      omega
    refine ⟨hov, ?_⟩
    rw [daysOverdue, hov]
    simp only [if_true]
    omega
  · intro h
    have hov : isOverdue false now expected = false := by
      rw [isOverdue]
      simp only [Bool.not_false, Bool.true_and, decide_eq_false_iff_not]
      omega
    refine ⟨hov, ?_⟩
    rw [daysOverdue, hov]
    simp

/-- Witness for C4 at the spec's two examples: three days past due, and
a future expected return. -/
theorem claim_C4_witness :
    daysOverdue false (3 * 86400) 0 = 3 ∧
    isOverdue false 0 86400 = false ∧ daysOverdue false 0 86400 = 0 := by
  refine ⟨?_, ?_, ?_⟩
  · exact ((claim_C4 (3 * 86400) 0).2.2.1 (by omega) (by omega)).2
  · exact ((claim_C4 0 86400).2.2.2 (by omega)).1
  · exact ((claim_C4 0 86400).2.2.2 (by omega)).2

/-- Claim C3: an invalid checkout form (quantity below 1, quantity above
the available stock, or a blank LDAP after trimming) never reaches the
mutation and records an error on the failing field; a valid form passes
validation and the request is sent. -/
theorem claim_C3 (item : Item) (f : CheckoutFormState) :
    ((f.quantity < 1 ∨ (item.quantity_available : Int) < f.quantity ∨
        jsTrim f.ldap = "") →
      CheckoutModal.validate item f = false ∧
      CheckoutModal.handleSubmit item f = none ∧
      (jsTrim f.ldap = "" → (CheckoutModal.validationErrors item f).ldap ≠ none) ∧
      ((f.quantity < 1 ∨ (item.quantity_available : Int) < f.quantity) →
        (CheckoutModal.validationErrors item f).quantity ≠ none)) ∧
    (¬ (f.quantity < 1 ∨ (item.quantity_available : Int) < f.quantity ∨
        jsTrim f.ldap = "") →
      CheckoutModal.validate item f = true ∧
      ∃ req, CheckoutModal.handleSubmit item f = some req) := by
  constructor
  · intro hbad
    have hv : CheckoutModal.validate item f = false := by
      rw [CheckoutModal.validate]
      rcases hbad with h | h | h
      · simp [CheckoutModal.validationErrors, h]
      · by_cases h1 : f.quantity < 1
        · simp [CheckoutModal.validationErrors, h1]
        · simp [CheckoutModal.validationErrors, h1, h]
      · simp [CheckoutModal.validationErrors, h]
    refine ⟨hv, ?_, ?_, ?_⟩
    · rw [CheckoutModal.handleSubmit, hv]
      simp
    · intro h
      simp [CheckoutModal.validationErrors, h]
    · intro h
      rcases h with h | h
      · simp [CheckoutModal.validationErrors, h]
      · by_cases h1 : f.quantity < 1
        · simp [CheckoutModal.validationErrors, h1]
        · simp [CheckoutModal.validationErrors, h1, h]
  · intro hgood
    push_neg at hgood
    obtain ⟨h1, h2, h3⟩ := hgood
    have h1' : ¬ f.quantity < 1 := not_lt.mpr h1
    have h2' : ¬ (item.quantity_available : Int) < f.quantity := not_lt.mpr h2
    have hv : CheckoutModal.validate item f = true := by
      rw [CheckoutModal.validate]
      simp [CheckoutModal.validationErrors, h1', h2', h3]
    refine ⟨hv, ?_⟩
    rw [CheckoutModal.handleSubmit, hv]
    exact ⟨_, if_pos rfl⟩

/-- Witness for C3: a blank LDAP blocks the submission while a filled
form goes through. -/
theorem claim_C3_witness :
    CheckoutModal.handleSubmit (sampleItem 5)
        { ldap := " ", quantity := 1, expectedReturn := ""
        , condition := Condition.good, notes := "" } = none ∧
    ∃ req,
      CheckoutModal.handleSubmit (sampleItem 5)
          { ldap := "abc", quantity := 2, expectedReturn := ""
          , condition := Condition.good, notes := "" } = some req := by
  constructor
  · exact ((claim_C3 (sampleItem 5) _).1 (Or.inr (Or.inr (by decide)))).2.1
  · exact ((claim_C3 (sampleItem 5) _).2 (by decide)).2

/-- Claim C5: a valid checkout submission posts to `/api/checkout` a
body with the item id, the trimmed LDAP, the quantity and the condition,
where the expected return datetime is omitted exactly when the date
field is empty and the notes are omitted exactly when blank. -/
theorem claim_C5 (item : Item) (f : CheckoutFormState)
    (hvalid : CheckoutModal.validate item f = true) :
    ∃ req, CheckoutModal.handleSubmit item f = some req ∧
      checkoutItem req =
        { method := .post, url := "/api/checkout", body := some req } ∧
      req.item_id = item.item_id ∧
      req.user_ldap = jsTrim f.ldap ∧
      req.quantity = f.quantity ∧
      req.checkout_condition = f.condition.toStr ∧
      (f.expectedReturn = "" → req.expected_return_datetime = none) ∧
      (f.expectedReturn ≠ "" →
        req.expected_return_datetime = some f.expectedReturn) ∧
      (jsTrim f.notes = "" → req.notes = none) ∧
      (jsTrim f.notes ≠ "" → req.notes = some (jsTrim f.notes)) := by
  refine
    ⟨{ item_id := item.item_id
     , user_ldap := jsTrim f.ldap
     , quantity := f.quantity
     , expected_return_datetime :=
         if f.expectedReturn = "" then none else some f.expectedReturn
     , checkout_condition := f.condition.toStr
     , notes := if jsTrim f.notes = "" then none else some (jsTrim f.notes) },
     ?_, rfl, rfl, rfl, rfl, rfl, ?_, ?_, ?_, ?_⟩
  · rw [CheckoutModal.handleSubmit, hvalid]
    exact if_pos rfl
  · intro h
    rw [if_pos h]
  · intro h
    rw [if_neg h]
  · intro h
    rw [if_pos h]
  · intro h
    rw [if_neg h]

/-- Witness for C5 at a concrete valid form with surrounding whitespace
in the LDAP. -/
theorem claim_C5_witness :
    ∃ req,
      CheckoutModal.handleSubmit (sampleItem 5)
          { ldap := " jdoe ", quantity := 2, expectedReturn := ""
          , condition := Condition.fair, notes := " note " } = some req ∧
      req.user_ldap = "jdoe" := by
  obtain ⟨req, hsub, -, -, hldap, -⟩ :=
    claim_C5 (sampleItem 5)
      { ldap := " jdoe ", quantity := 2, expectedReturn := ""
      , condition := Condition.fair, notes := " note " } (by decide)
  refine ⟨req, hsub, ?_⟩
  rw [hldap]
  decide

/-- Claim C6: every check-in submission posts to `/api/checkout/checkin`
the displayed checkout's id, a return condition among good, fair and
poor, and the return notes, omitted when blank after trimming. -/
theorem claim_C6 (checkout : ActiveCheckout) (f : CheckinFormState) :
    checkinItem (CheckinModal.handleSubmit checkout f) =
      { method := .post
      , url := "/api/checkout/checkin"
      , body := some (CheckinModal.handleSubmit checkout f) } ∧
    (CheckinModal.handleSubmit checkout f).checkout_id = checkout.checkout_id ∧
    ((CheckinModal.handleSubmit checkout f).return_condition = "good" ∨
      (CheckinModal.handleSubmit checkout f).return_condition = "fair" ∨
      (CheckinModal.handleSubmit checkout f).return_condition = "poor") ∧
    (jsTrim f.returnNotes = "" →
      (CheckinModal.handleSubmit checkout f).return_notes = none) ∧
    (jsTrim f.returnNotes ≠ "" →
      (CheckinModal.handleSubmit checkout f).return_notes =
        some (jsTrim f.returnNotes)) := by
  refine ⟨rfl, rfl, ?_, ?_, ?_⟩
  · rcases hc : f.returnCondition <;>
      simp [CheckinModal.handleSubmit, Condition.toStr, hc]
  · intro h
    simp [CheckinModal.handleSubmit, h]
  · intro h
    simp [CheckinModal.handleSubmit, h]

/-- Witness for C6 at a concrete checkout with blank return notes. -/
theorem claim_C6_witness :
    (CheckinModal.handleSubmit sampleActiveCheckout
        { returnCondition := Condition.good, returnNotes := "  " }).return_notes =
      none :=
  (claim_C6 sampleActiveCheckout
    { returnCondition := Condition.good, returnNotes := "  " }).2.2.2.1 (by decide)

/-- Claim C7: the active-checkouts query is a GET resolving to
`/api/checkout/active` with no request data, and its parsed response is
returned unchanged with its `success`, `total_active_checkouts` and
`checkouts` fields. -/
theorem claim_C7 (data : Option CheckinFormData) (resp : ActiveCheckoutsResponse) :
    (getActiveCheckouts data).method = Method.get ∧
    apiClient.resolve (getActiveCheckouts data).url = "/api/checkout/active" ∧
    (getActiveCheckouts data).body = none ∧
    (getActiveCheckoutsResult resp).success = resp.success ∧
    (getActiveCheckoutsResult resp).total_active_checkouts =
      resp.total_active_checkouts ∧
    (getActiveCheckoutsResult resp).checkouts = resp.checkouts := by
  refine ⟨rfl, ?_, rfl, rfl, rfl, rfl⟩
  show apiClient.resolve ("api/checkout/active") = "/api/checkout/active"
  decide

/-- Claim C8 as stated is false: the location parameter is dropped when
the supplied location is the empty string. -/
theorem claim_C8_counterexample :
    ¬ ("location" ∈ (searchInventory ("pen") (some (""))).params.map Prod.fst) := by
  decide

/-- Claim C8, amended: the search request is a GET to
`/api/inventory/search` with parameter `q` set to the query and
`location` present exactly when a non-empty location was supplied; the
match is case-insensitive substring over item name and category with an
optional exact location filter, and filtering preserves the store's
`item_id` order. -/
theorem claim_C8 (query : String) (location : Option String) (items : List Item) :
    (searchInventory query location).path = "/api/inventory/search" ∧
    ("q", query) ∈ (searchInventory query location).params ∧
    (("location" ∈ (searchInventory query location).params.map Prod.fst) ↔
      ∃ l, location = some l ∧ l ≠ "") ∧
    (∀ l, location = some l → l ≠ "" →
      ("location", l) ∈ (searchInventory query location).params) ∧
    (∀ it, it ∈ searchItems items query location ↔
      it ∈ items ∧ matchesSearch query location it = true) ∧
    (List.Pairwise (fun a b => a.item_id ≤ b.item_id) items →
      List.Pairwise (fun a b => a.item_id ≤ b.item_id)
        (searchItems items query location)) := by
  refine ⟨rfl, ?_, ?_, ?_, ?_, ?_⟩
  · simp [searchInventory]
  · cases location with
    | none => simp [searchInventory]
    | some l =>
      by_cases h : l = ""
      · subst h
        simp [searchInventory]
      · simp [searchInventory, h]
  · intro l hl hne
    subst hl
    simp [searchInventory, hne]
  · intro it
    simp [searchItems, List.mem_filter]
  · intro hsorted
    exact List.Pairwise.sublist (List.filter_sublist _) hsorted

/-- Witness for C8: a non-empty location is carried as a parameter, and
a singleton store stays ordered after filtering. -/
theorem claim_C8_witness :
    ("location", "san_jose") ∈ (searchInventory ("drill") (some ("san_jose"))).params ∧
    List.Pairwise (fun a b => a.item_id ≤ b.item_id)
      (searchItems [sampleItem 5] ("DRI") none) := by
  constructor
  · exact (claim_C8 ("drill") (some ("san_jose")) []).2.2.2.1 ("san_jose") rfl (by decide)
  · exact (claim_C8 ("DRI") none [sampleItem 5]).2.2.2.2.2 (by simp)

/-- A pair of complementary filters splits a list's length. -/
theorem length_filter_add_length_filter_eq {α : Type} (l : List α)
    (p q : α → Bool) (hpq : ∀ x, p x = ! q x) :
    (l.filter p).length + (l.filter q).length = l.length := by
  induction l with
  | nil => rfl
  | cons a t ih =>
    have h := hpq a
    cases hq : q a
    · rw [hq] at h
      simp only [Bool.not_false] at h
      simp [List.filter_cons, h, hq]
      omega
    · rw [hq] at h
      simp only [Bool.not_true] at h
      simp [List.filter_cons, h, hq]
      omega

/-- A filter by a stronger predicate keeps at most as many elements. -/
theorem length_filter_le_of_imp {α : Type} (l : List α) (p q : α → Bool)
    (hpq : ∀ x, p x = true → q x = true) :
    (l.filter p).length ≤ (l.filter q).length := by
  induction l with
  | nil => exact le_refl _
  | cons a t ih =>
    by_cases hp : p a = true
    · have hqa := hpq a hp
      simp [List.filter_cons, hp, hqa]
      omega
    · have hp' : p a = false := by
        revert hp
        cases p a <;> simp
      cases hqa : q a <;> simp [List.filter_cons, hp', hqa] <;> omega

/-- Claim C9: the dashboard's out-of-stock and available counts
partition the item list, every low-stock item is counted available, and
no item is both out of stock and low stock. -/
theorem claim_C9 (items : List Item) (active overdue : List ActiveCheckout) :
    (DashboardPage.stats items active overdue).outOfStock +
        (DashboardPage.stats items active overdue).availableItems =
      (DashboardPage.stats items active overdue).totalItems ∧
    (∀ it, DashboardPage.isLowStockItem it = true →
      DashboardPage.isAvailableItem it = true) ∧
    (DashboardPage.stats items active overdue).lowStock ≤
      (DashboardPage.stats items active overdue).availableItems ∧
    (∀ it : Item, ¬ (DashboardPage.isOutOfStockItem it = true ∧
      DashboardPage.isLowStockItem it = true)) := by
  have himp : ∀ it : Item, DashboardPage.isLowStockItem it = true →
      DashboardPage.isAvailableItem it = true := by
    intro it h
    rw [DashboardPage.isLowStockItem] at h
    rw [DashboardPage.isAvailableItem]
    simp only [Bool.and_eq_true] at h
    exact h.1
  refine ⟨?_, himp, ?_, ?_⟩
  · refine length_filter_add_length_filter_eq items _ _ ?_
    intro it
    rw [DashboardPage.isOutOfStockItem, DashboardPage.isAvailableItem]
    by_cases h : it.quantity_available = 0
    · simp [h]
    · simp [h, Nat.pos_of_ne_zero h]
  · exact length_filter_le_of_imp items _ _ himp
  · rintro it ⟨h0, hl⟩
    have hav := himp it hl
    rw [DashboardPage.isOutOfStockItem] at h0
    rw [DashboardPage.isAvailableItem] at hav
    simp only [decide_eq_true_eq] at h0 hav
    omega

/-- Witness for C9: the spec's three example items partition, and the
low-stock example counts as available. -/
theorem claim_C9_witness :
    DashboardPage.isAvailableItem (sampleItem 1) = true ∧
    (DashboardPage.stats [sampleItem 0, sampleItem 1, sampleItem 8] [] []).outOfStock +
        (DashboardPage.stats [sampleItem 0, sampleItem 1, sampleItem 8] [] []).availableItems =
      (DashboardPage.stats [sampleItem 0, sampleItem 1, sampleItem 8] [] []).totalItems := by
  constructor
  · refine (claim_C9 [] [] []).2.1 (sampleItem 1) ?_
    rw [DashboardPage.isLowStockItem]
    norm_num [sampleItem]
  · exact (claim_C9 [sampleItem 0, sampleItem 1, sampleItem 8] [] []).1

/-- Claim C10: neither view offers checkout for an out-of-stock item:
the card's button requires positive availability and a handler, and the
details page shows the enabled checkout button exactly when availability
is positive. -/
theorem claim_C10 (item : Item) (hasCheckoutHandler : Bool) :
    (item.quantity_available = 0 →
      ItemCard.showsCheckoutButton item hasCheckoutHandler = false ∧
      ItemDetailsPage.checkoutAction item = DetailsAction.outOfStockDisabled) ∧
    (ItemCard.showsCheckoutButton item hasCheckoutHandler = true →
      item.quantity_available > 0 ∧ hasCheckoutHandler = true) ∧
    (ItemDetailsPage.checkoutAction item = DetailsAction.checkoutButton ↔
      item.quantity_available > 0) := by
  refine ⟨?_, ?_, ?_⟩
  · intro h
    constructor
    · simp [ItemCard.showsCheckoutButton, h]
    · simp [ItemDetailsPage.checkoutAction, h]
  · intro h
    simp only [ItemCard.showsCheckoutButton, Bool.and_eq_true,
      decide_eq_true_eq] at h
    exact h
  · by_cases h : item.quantity_available > 0
    · simp [ItemDetailsPage.checkoutAction, h]
    · simp [ItemDetailsPage.checkoutAction, h]

/-- Witness for C10 at an out-of-stock item. -/
theorem claim_C10_witness :
    ItemCard.showsCheckoutButton (sampleItem 0) true = false ∧
    ItemDetailsPage.checkoutAction (sampleItem 0) =
      DetailsAction.outOfStockDisabled :=
  (claim_C10 (sampleItem 0) true).1 rfl

end InventoryM
